import Mathlib

/-!
Shallow embedding of the 6502 CPU interpreter from `src/src/cpu.rs`
(repository PythonHacker24/rust-nes-emulator).

Machine integers are modelled as `Nat` with explicit `% 256` / `% 65536`
where the Rust code wraps (`wrapping_add`, `as u8`, `as u16`), and with
explicit `Int` round-trips where the code converts through `i8`.
Fallible operations (array indexing that can go out of bounds, checked
`+` on `u16`, `unwrap` on the opcode table, `panic!`/`todo!`) are
modelled with `Option`: `none` is a panic of the Rust program.

The CPU's memory is `[u8; 0xFFFF]` in the source — 65535 bytes, one byte
short of the full 16-bit address space — so a read or write at address
0xFFFF is out of bounds and is modelled as `none`.
-/

namespace Nes

/-- Size of the memory array in the source: `memory: [u8; 0xFFFF]`. -/
def MEMSIZE : Nat := 0xFFFF

/-- Constant `STACK: u16 = 0x0100` from the source. -/
def STACK : Nat := 0x0100

/-- Constant `STACK_RESET: u8 = 0xfd` from the source. -/
def STACK_RESET : Nat := 0xfd

/- Status flag bit masks, from the `bitflags!` block in the source. -/
namespace CpuFlags

def CARRY : Nat := 0b00000001
def ZERO : Nat := 0b00000010
def INTERRUPT_DISABLE : Nat := 0b00000100
def DECIMAL_MODE : Nat := 0b00001000
def BREAK : Nat := 0b00010000
def BREAK2 : Nat := 0b00100000
def OVERFLOW : Nat := 0b01000000
def NEGATIV : Nat := 0b10000000

/-- Model of bitflags `contains`: `self.bits & other.bits == other.bits`. -/
def contains (s m : Nat) : Bool := s &&& m == m

/-- Model of bitflags `insert`: `self.bits |= other.bits`. -/
def insert (s m : Nat) : Nat := s ||| m

/-- Model of bitflags `remove`: `self.bits &= !other.bits` (`u8` complement). -/
def remove (s m : Nat) : Nat := s &&& (0xFF ^^^ m)

/-- Model of bitflags `set`: insert when the bool is true, else remove. -/
def set (s m : Nat) (b : Bool) : Nat := if b then insert s m else remove s m

end CpuFlags

/-- The `AddressingMode` enum from the source. -/
inductive AddressingMode
  | Immediate
  | ZeroPage
  | ZeroPage_X
  | ZeroPage_Y
  | Absolute
  | Absolute_X
  | Absolute_Y
  | Indirect_X
  | Indirect_Y
  | NoneAddressing
deriving DecidableEq, Repr

/-- The `CPU` struct from the source.  Register fields hold `u8` values
(`Nat` below 256 in all reachable states), `program_counter` holds a
`u16` value, and `memory` gives the contents of the 65535-byte array. -/
structure CPU where
  register_a : Nat
  register_x : Nat
  register_y : Nat
  status : Nat
  program_counter : Nat
  stack_pointer : Nat
  memory : Nat → Nat

namespace CPU

/-- Model of `CPU::new()`. -/
def new : CPU :=
  { register_a := 0
    register_x := 0
    register_y := 0
    stack_pointer := STACK_RESET
    program_counter := 0
    status := 0b100100
    memory := fun _ => 0 }

/-- Model of `mem_read`: `self.memory[addr as usize]`, with the array
bounds check made explicit (`none` is the out-of-bounds panic). -/
def mem_read (cpu : CPU) (addr : Nat) : Option Nat :=
  if addr < MEMSIZE then some (cpu.memory addr) else none

/-- Model of `mem_write`: `self.memory[addr as usize] = data`, with the
array bounds check made explicit. -/
def mem_write (cpu : CPU) (addr : Nat) (data : Nat) : Option CPU :=
  if addr < MEMSIZE then
    some { cpu with memory := fun i => if i = addr then data else cpu.memory i }
  else none

/-- Model of the trait-default `mem_read_u16`: read the low byte at
`pos`, the high byte at `pos + 1`, combine little-endian.  (For
`pos = 0xFFFF` the low-byte read is already out of bounds, before the
`pos + 1` arithmetic is reached, exactly as in the source.) -/
def mem_read_u16 (cpu : CPU) (pos : Nat) : Option Nat := do
  let lo ← cpu.mem_read pos
  let hi ← cpu.mem_read (pos + 1)
  pure ((hi <<< 8) ||| lo)

/-- Model of the trait-default `mem_write_u16`: split into bytes and
write low at `pos`, high at `pos + 1`. -/
def mem_write_u16 (cpu : CPU) (pos : Nat) (data : Nat) : Option CPU := do
  let hi := (data >>> 8) % 256
  let lo := data &&& 0xff
  let c1 ← cpu.mem_write pos lo
  c1.mem_write (pos + 1) hi

/-- Model of `CPU::get_operand_address`.  `NoneAddressing` panics in the
source (`panic!("mode ... is not supported")`), hence `none`. -/
def get_operand_address (cpu : CPU) (mode : AddressingMode) : Option Nat :=
  match mode with
  | AddressingMode.Immediate => some cpu.program_counter
  | AddressingMode.ZeroPage => cpu.mem_read cpu.program_counter
  | AddressingMode.Absolute => cpu.mem_read_u16 cpu.program_counter
  | AddressingMode.ZeroPage_X => do
      let pos ← cpu.mem_read cpu.program_counter
      pure ((pos + cpu.register_x) % 256)
  | AddressingMode.ZeroPage_Y => do
      let pos ← cpu.mem_read cpu.program_counter
      pure ((pos + cpu.register_y) % 256)
  | AddressingMode.Absolute_X => do
      let base ← cpu.mem_read_u16 cpu.program_counter
      pure ((base + cpu.register_x) % 65536)
  | AddressingMode.Absolute_Y => do
      let base ← cpu.mem_read_u16 cpu.program_counter
      pure ((base + cpu.register_y) % 65536)
  | AddressingMode.Indirect_X => do
      let base ← cpu.mem_read cpu.program_counter
      let ptr := (base + cpu.register_x) % 256
      let lo ← cpu.mem_read ptr
      let hi ← cpu.mem_read ((ptr + 1) % 256)
      pure ((hi <<< 8) ||| lo)
  | AddressingMode.Indirect_Y => do
      let base ← cpu.mem_read cpu.program_counter
      let ptr := (base + cpu.register_y) % 256
      let lo ← cpu.mem_read ptr
      let hi ← cpu.mem_read ((ptr + 1) % 256)
      pure ((hi <<< 8) ||| lo)
  | AddressingMode.NoneAddressing => none

/-- Model of `update_zero_and_negative_flags`. -/
def update_zero_and_negative_flags (cpu : CPU) (result : Nat) : CPU :=
  let s1 := if result = 0 then CpuFlags.insert cpu.status CpuFlags.ZERO
            else CpuFlags.remove cpu.status CpuFlags.ZERO
  let s2 := if result >>> 7 = 1 then CpuFlags.insert s1 CpuFlags.NEGATIV
            else CpuFlags.remove s1 CpuFlags.NEGATIV
  { cpu with status := s2 }

/-- Model of `set_register_a`. -/
def set_register_a (cpu : CPU) (value : Nat) : CPU :=
  ({ cpu with register_a := value }).update_zero_and_negative_flags value

/-- Model of `add_to_register_a`: 16-bit sum of A, the operand and the
carry-in; CARRY from `sum > 0xff`; the result is `sum as u8`; OVERFLOW
from `(data ^ result) & (result ^ A) & 0x80 != 0` (old A); then
`set_register_a` updates A and the Z/N flags. -/
def add_to_register_a (cpu : CPU) (data : Nat) : CPU :=
  let sum := cpu.register_a + data +
    (if CpuFlags.contains cpu.status CpuFlags.CARRY then 1 else 0)
  let s1 := if sum > 0xff then CpuFlags.insert cpu.status CpuFlags.CARRY
            else CpuFlags.remove cpu.status CpuFlags.CARRY
  let result := sum % 256
  let s2 := if (data ^^^ result) &&& (result ^^^ cpu.register_a) &&& 0x80 ≠ 0 then
              CpuFlags.insert s1 CpuFlags.OVERFLOW
            else CpuFlags.remove s1 CpuFlags.OVERFLOW
  ({ cpu with status := s2 }).set_register_a result

/-- Reinterpretation `u8 → i8` (Rust `data as i8`). -/
def i8_of_u8 (m : Nat) : Int := if m < 128 then (m : Int) else (m : Int) - 256

/-- Two's-complement wrap of an `Int` into the `i8` range. -/
def wrap_i8 (x : Int) : Int := (x + 128) % 256 - 128

/-- Reinterpretation `i8 → u8` (Rust `x as u8`). -/
def u8_of_i8 (x : Int) : Nat := (x % 256).toNat

/-- Sign-extending reinterpretation `i8 → u16` (Rust `jump as u16`). -/
def u16_of_i8 (x : Int) : Nat := (x % 65536).toNat

/-- The operand transformation inside `sbc`:
`((data as i8).wrapping_neg().wrapping_sub(1)) as u8`. -/
def sbc_operand (m : Nat) : Nat :=
  u8_of_i8 (wrap_i8 (wrap_i8 (-(i8_of_u8 m)) - 1))

/-- Model of `sbc`. -/
def sbc (cpu : CPU) (mode : AddressingMode) : Option CPU := do
  let addr ← cpu.get_operand_address mode
  let data ← cpu.mem_read addr
  pure (cpu.add_to_register_a (sbc_operand data))

/-- Model of `adc`. -/
def adc (cpu : CPU) (mode : AddressingMode) : Option CPU := do
  let addr ← cpu.get_operand_address mode
  let value ← cpu.mem_read addr
  pure (cpu.add_to_register_a value)

/-- Model of `stack_pop`: increment SP with 8-bit wrap, then read
`memory[0x0100 + SP]`. -/
def stack_pop (cpu : CPU) : Option (Nat × CPU) :=
  let c := { cpu with stack_pointer := (cpu.stack_pointer + 1) % 256 }
  do
    let v ← c.mem_read (STACK + c.stack_pointer)
    pure (v, c)

/-- Model of `stack_push`: write `memory[0x0100 + SP]`, then decrement
SP with 8-bit wrap. -/
def stack_push (cpu : CPU) (data : Nat) : Option CPU := do
  let c ← cpu.mem_write (STACK + cpu.stack_pointer) data
  pure { c with stack_pointer := (c.stack_pointer + 255) % 256 }

/-- Model of `stack_push_u16`: push high byte, then low byte. -/
def stack_push_u16 (cpu : CPU) (data : Nat) : Option CPU := do
  let hi := (data >>> 8) % 256
  let lo := data &&& 0xff
  let c1 ← cpu.stack_push hi
  c1.stack_push lo

/-- Model of `stack_pop_u16`: pop low byte, then high byte. -/
def stack_pop_u16 (cpu : CPU) : Option (Nat × CPU) := do
  let (lo, c1) ← cpu.stack_pop
  let (hi, c2) ← c1.stack_pop
  pure ((hi <<< 8) ||| lo, c2)

/-- Model of `ldy`. -/
def ldy (cpu : CPU) (mode : AddressingMode) : Option CPU := do
  let addr ← cpu.get_operand_address mode
  let data ← cpu.mem_read addr
  pure (({ cpu with register_y := data }).update_zero_and_negative_flags data)

/-- Model of `ldx`. -/
def ldx (cpu : CPU) (mode : AddressingMode) : Option CPU := do
  let addr ← cpu.get_operand_address mode
  let data ← cpu.mem_read addr
  pure (({ cpu with register_x := data }).update_zero_and_negative_flags data)

/-- Model of `lda`. -/
def lda (cpu : CPU) (mode : AddressingMode) : Option CPU := do
  let addr ← cpu.get_operand_address mode
  let value ← cpu.mem_read addr
  pure (cpu.set_register_a value)

/-- Model of `sta`. -/
def sta (cpu : CPU) (mode : AddressingMode) : Option CPU := do
  let addr ← cpu.get_operand_address mode
  cpu.mem_write addr cpu.register_a

/-- Model of `and`. -/
def and (cpu : CPU) (mode : AddressingMode) : Option CPU := do
  let addr ← cpu.get_operand_address mode
  let data ← cpu.mem_read addr
  pure (cpu.set_register_a (data &&& cpu.register_a))

/-- Model of `eor`. -/
def eor (cpu : CPU) (mode : AddressingMode) : Option CPU := do
  let addr ← cpu.get_operand_address mode
  let data ← cpu.mem_read addr
  pure (cpu.set_register_a (data ^^^ cpu.register_a))

/-- Model of `ora`. -/
def ora (cpu : CPU) (mode : AddressingMode) : Option CPU := do
  let addr ← cpu.get_operand_address mode
  let data ← cpu.mem_read addr
  pure (cpu.set_register_a (data ||| cpu.register_a))

/-- Model of `tax`. -/
def tax (cpu : CPU) : CPU :=
  ({ cpu with register_x := cpu.register_a }).update_zero_and_negative_flags cpu.register_a

/-- Model of `inx`. -/
def inx (cpu : CPU) : CPU :=
  let v := (cpu.register_x + 1) % 256
  ({ cpu with register_x := v }).update_zero_and_negative_flags v

/-- Model of `iny`. -/
def iny (cpu : CPU) : CPU :=
  let v := (cpu.register_y + 1) % 256
  ({ cpu with register_y := v }).update_zero_and_negative_flags v

/-- Model of `dex`. -/
def dex (cpu : CPU) : CPU :=
  let v := (cpu.register_x + 255) % 256
  ({ cpu with register_x := v }).update_zero_and_negative_flags v

/-- Model of `dey`. -/
def dey (cpu : CPU) : CPU :=
  let v := (cpu.register_y + 255) % 256
  ({ cpu with register_y := v }).update_zero_and_negative_flags v

/-- Model of `asl_accumulator`. -/
def asl_accumulator (cpu : CPU) : CPU :=
  let data := cpu.register_a
  let s1 := if data >>> 7 = 1 then CpuFlags.insert cpu.status CpuFlags.CARRY
            else CpuFlags.remove cpu.status CpuFlags.CARRY
  ({ cpu with status := s1 }).set_register_a ((data <<< 1) % 256)

/-- Model of `asl` (memory form). -/
def asl (cpu : CPU) (mode : AddressingMode) : Option CPU := do
  let addr ← cpu.get_operand_address mode
  let data ← cpu.mem_read addr
  let s1 := if data >>> 7 = 1 then CpuFlags.insert cpu.status CpuFlags.CARRY
            else CpuFlags.remove cpu.status CpuFlags.CARRY
  let d2 := (data <<< 1) % 256
  let c2 ← ({ cpu with status := s1 }).mem_write addr d2
  pure (c2.update_zero_and_negative_flags d2)

/-- Model of `lsr_accumulator`. -/
def lsr_accumulator (cpu : CPU) : CPU :=
  let data := cpu.register_a
  let s1 := if data &&& 1 = 1 then CpuFlags.insert cpu.status CpuFlags.CARRY
            else CpuFlags.remove cpu.status CpuFlags.CARRY
  ({ cpu with status := s1 }).set_register_a (data >>> 1)

/-- Model of `lsr` (memory form). -/
def lsr (cpu : CPU) (mode : AddressingMode) : Option CPU := do
  let addr ← cpu.get_operand_address mode
  let data ← cpu.mem_read addr
  let s1 := if data &&& 1 = 1 then CpuFlags.insert cpu.status CpuFlags.CARRY
            else CpuFlags.remove cpu.status CpuFlags.CARRY
  let d2 := data >>> 1
  let c2 ← ({ cpu with status := s1 }).mem_write addr d2
  pure (c2.update_zero_and_negative_flags d2)

/-- Model of `rol` (memory form). -/
def rol (cpu : CPU) (mode : AddressingMode) : Option CPU := do
  let addr ← cpu.get_operand_address mode
  let data ← cpu.mem_read addr
  let old_carry := CpuFlags.contains cpu.status CpuFlags.CARRY
  let s1 := if data >>> 7 = 1 then CpuFlags.insert cpu.status CpuFlags.CARRY
            else CpuFlags.remove cpu.status CpuFlags.CARRY
  let d2 := (data <<< 1) % 256
  let d3 := if old_carry then d2 ||| 1 else d2
  let c2 ← ({ cpu with status := s1 }).mem_write addr d3
  pure (c2.update_zero_and_negative_flags d3)

/-- Model of `rol_accumulator`. -/
def rol_accumulator (cpu : CPU) : CPU :=
  let data := cpu.register_a
  let old_carry := CpuFlags.contains cpu.status CpuFlags.CARRY
  let s1 := if data >>> 7 = 1 then CpuFlags.insert cpu.status CpuFlags.CARRY
            else CpuFlags.remove cpu.status CpuFlags.CARRY
  let d2 := (data <<< 1) % 256
  let d3 := if old_carry then d2 ||| 1 else d2
  ({ cpu with status := s1 }).set_register_a d3

/-- Model of `ror` (memory form). -/
def ror (cpu : CPU) (mode : AddressingMode) : Option CPU := do
  let addr ← cpu.get_operand_address mode
  let data ← cpu.mem_read addr
  let old_carry := CpuFlags.contains cpu.status CpuFlags.CARRY
  let s1 := if data &&& 1 = 1 then CpuFlags.insert cpu.status CpuFlags.CARRY
            else CpuFlags.remove cpu.status CpuFlags.CARRY
  let d2 := data >>> 1
  let d3 := if old_carry then d2 ||| 0b10000000 else d2
  let c2 ← ({ cpu with status := s1 }).mem_write addr d3
  pure (c2.update_zero_and_negative_flags d3)

/-- Model of `ror_accumulator`. -/
def ror_accumulator (cpu : CPU) : CPU :=
  let data := cpu.register_a
  let old_carry := CpuFlags.contains cpu.status CpuFlags.CARRY
  let s1 := if data &&& 1 = 1 then CpuFlags.insert cpu.status CpuFlags.CARRY
            else CpuFlags.remove cpu.status CpuFlags.CARRY
  let d2 := data >>> 1
  let d3 := if old_carry then d2 ||| 0b10000000 else d2
  ({ cpu with status := s1 }).set_register_a d3

/-- Model of `inc`. -/
def inc (cpu : CPU) (mode : AddressingMode) : Option CPU := do
  let addr ← cpu.get_operand_address mode
  let data ← cpu.mem_read addr
  let d2 := (data + 1) % 256
  let c2 ← cpu.mem_write addr d2
  pure (c2.update_zero_and_negative_flags d2)

/-- Model of `dec`. -/
def dec (cpu : CPU) (mode : AddressingMode) : Option CPU := do
  let addr ← cpu.get_operand_address mode
  let data ← cpu.mem_read addr
  let d2 := (data + 255) % 256
  let c2 ← cpu.mem_write addr d2
  pure (c2.update_zero_and_negative_flags d2)

/-- Model of `pla`. -/
def pla (cpu : CPU) : Option CPU := do
  let (data, c1) ← cpu.stack_pop
  pure (c1.set_register_a data)

/-- Model of `plp`: pop into the status byte, clear BREAK, set BREAK2. -/
def plp (cpu : CPU) : Option CPU := do
  let (data, c1) ← cpu.stack_pop
  pure { c1 with status :=
    CpuFlags.insert (CpuFlags.remove data CpuFlags.BREAK) CpuFlags.BREAK2 }

/-- Model of `php`: push the status with BREAK and BREAK2 forced on. -/
def php (cpu : CPU) : Option CPU :=
  cpu.stack_push
    (CpuFlags.insert (CpuFlags.insert cpu.status CpuFlags.BREAK) CpuFlags.BREAK2)

/-- Model of `bit`. -/
def bit (cpu : CPU) (mode : AddressingMode) : Option CPU := do
  let addr ← cpu.get_operand_address mode
  let data ← cpu.mem_read addr
  let s1 := if cpu.register_a &&& data = 0 then
              CpuFlags.insert cpu.status CpuFlags.ZERO
            else CpuFlags.remove cpu.status CpuFlags.ZERO
  let s2 := CpuFlags.set s1 CpuFlags.NEGATIV (decide (0 < data &&& 0b10000000))
  let s3 := CpuFlags.set s2 CpuFlags.OVERFLOW (decide (0 < data &&& 0b01000000))
  pure { cpu with status := s3 }

/-- Model of `compare`. -/
def compare (cpu : CPU) (mode : AddressingMode) (compare_with : Nat) : Option CPU := do
  let addr ← cpu.get_operand_address mode
  let data ← cpu.mem_read addr
  let s1 := if data ≤ compare_with then CpuFlags.insert cpu.status CpuFlags.CARRY
            else CpuFlags.remove cpu.status CpuFlags.CARRY
  pure (({ cpu with status := s1 }).update_zero_and_negative_flags
    ((compare_with + 256 - data) % 256))

/-- Model of `branch`: when the condition holds, read the signed offset
byte at PC and set PC to `PC.wrapping_add(1).wrapping_add(offset as u16)`. -/
def branch (cpu : CPU) (condition : Bool) : Option CPU :=
  if condition then do
    let j ← cpu.mem_read cpu.program_counter
    let jump_addr :=
      ((cpu.program_counter + 1) % 65536 + u16_of_i8 (i8_of_u8 j)) % 65536
    pure { cpu with program_counter := jump_addr }
  else pure cpu

/-- Model of `load`: copy the program into
`memory[0x0600 .. 0x0600 + len]` (the slice panics — `none` — when the
end of the range exceeds the 0xFFFF-byte array), then write 0x0600
little-endian to the reset vector at 0xFFFC. -/
def load (cpu : CPU) (program : List Nat) : Option CPU :=
  if 0x0600 + program.length ≤ MEMSIZE then
    let c1 : CPU := { cpu with memory := (fun i =>
      if 0x0600 ≤ i ∧ i < 0x0600 + program.length then program.getD (i - 0x0600) 0
      else cpu.memory i) }
    c1.mem_write_u16 0xFFFC 0x0600
  else none

end CPU

/-- Checked `u16` addition result (Rust `+` on `u16` panics on overflow
in debug builds): `none` models the overflow panic. -/
def checked_u16 (n : Nat) : Option Nat := if n < 65536 then some n else none

/-- Modelled from the spec: the repository's `opcodes.rs` (the static
`OPCODES_MAP` consulted by the dispatch loop) is not under `src/`; only
`use crate::opcodes` and the `opcode.mode` / `opcode.len` call sites
are.  The table below is populated per spec §4.3 ("entries for every
documented 6502 opcode", lengths 1 for implied/accumulator, 2 for
immediate/zero-page/relative/indirect-indexed, 3 for
absolute/absolute-indexed/indirect) and §6 ("bit-identical to
documented 6502 encodings"), with the grouping of opcode bytes taken
from the match arms of `run_with_callback` in `cpu.rs`.  Modes that
carry no memory operand (implied, accumulator, relative, and the two
JMPs, which read their operands inline) are `NoneAddressing`. -/
def opcodeLookup (code : Nat) : Option (Nat × AddressingMode) :=
  match code with
  | 0x00 => some (1, .NoneAddressing)
  | 0xea => some (1, .NoneAddressing)
  | 0x69 => some (2, .Immediate)
  | 0x65 => some (2, .ZeroPage)
  | 0x75 => some (2, .ZeroPage_X)
  | 0x6d => some (3, .Absolute)
  | 0x7d => some (3, .Absolute_X)
  | 0x79 => some (3, .Absolute_Y)
  | 0x61 => some (2, .Indirect_X)
  | 0x71 => some (2, .Indirect_Y)
  | 0xe9 => some (2, .Immediate)
  | 0xe5 => some (2, .ZeroPage)
  | 0xf5 => some (2, .ZeroPage_X)
  | 0xed => some (3, .Absolute)
  | 0xfd => some (3, .Absolute_X)
  | 0xf9 => some (3, .Absolute_Y)
  | 0xe1 => some (2, .Indirect_X)
  | 0xf1 => some (2, .Indirect_Y)
  | 0x29 => some (2, .Immediate)
  | 0x25 => some (2, .ZeroPage)
  | 0x35 => some (2, .ZeroPage_X)
  | 0x2d => some (3, .Absolute)
  | 0x3d => some (3, .Absolute_X)
  | 0x39 => some (3, .Absolute_Y)
  | 0x21 => some (2, .Indirect_X)
  | 0x31 => some (2, .Indirect_Y)
  | 0x49 => some (2, .Immediate)
  | 0x45 => some (2, .ZeroPage)
  | 0x55 => some (2, .ZeroPage_X)
  | 0x4d => some (3, .Absolute)
  | 0x5d => some (3, .Absolute_X)
  | 0x59 => some (3, .Absolute_Y)
  | 0x41 => some (2, .Indirect_X)
  | 0x51 => some (2, .Indirect_Y)
  | 0x09 => some (2, .Immediate)
  | 0x05 => some (2, .ZeroPage)
  | 0x15 => some (2, .ZeroPage_X)
  | 0x0d => some (3, .Absolute)
  | 0x1d => some (3, .Absolute_X)
  | 0x19 => some (3, .Absolute_Y)
  | 0x01 => some (2, .Indirect_X)
  | 0x11 => some (2, .Indirect_Y)
  | 0x0a => some (1, .NoneAddressing)
  | 0x06 => some (2, .ZeroPage)
  | 0x16 => some (2, .ZeroPage_X)
  | 0x0e => some (3, .Absolute)
  | 0x1e => some (3, .Absolute_X)
  | 0x4a => some (1, .NoneAddressing)
  | 0x46 => some (2, .ZeroPage)
  | 0x56 => some (2, .ZeroPage_X)
  | 0x4e => some (3, .Absolute)
  | 0x5e => some (3, .Absolute_X)
  | 0x2a => some (1, .NoneAddressing)
  | 0x26 => some (2, .ZeroPage)
  | 0x36 => some (2, .ZeroPage_X)
  | 0x2e => some (3, .Absolute)
  | 0x3e => some (3, .Absolute_X)
  | 0x6a => some (1, .NoneAddressing)
  | 0x66 => some (2, .ZeroPage)
  | 0x76 => some (2, .ZeroPage_X)
  | 0x6e => some (3, .Absolute)
  | 0x7e => some (3, .Absolute_X)
  | 0xe6 => some (2, .ZeroPage)
  | 0xf6 => some (2, .ZeroPage_X)
  | 0xee => some (3, .Absolute)
  | 0xfe => some (3, .Absolute_X)
  | 0xe8 => some (1, .NoneAddressing)
  | 0xc8 => some (1, .NoneAddressing)
  | 0xc6 => some (2, .ZeroPage)
  | 0xd6 => some (2, .ZeroPage_X)
  | 0xce => some (3, .Absolute)
  | 0xde => some (3, .Absolute_X)
  | 0xca => some (1, .NoneAddressing)
  | 0x88 => some (1, .NoneAddressing)
  | 0xc9 => some (2, .Immediate)
  | 0xc5 => some (2, .ZeroPage)
  | 0xd5 => some (2, .ZeroPage_X)
  | 0xcd => some (3, .Absolute)
  | 0xdd => some (3, .Absolute_X)
  | 0xd9 => some (3, .Absolute_Y)
  | 0xc1 => some (2, .Indirect_X)
  | 0xd1 => some (2, .Indirect_Y)
  | 0xc0 => some (2, .Immediate)
  | 0xc4 => some (2, .ZeroPage)
  | 0xcc => some (3, .Absolute)
  | 0xe0 => some (2, .Immediate)
  | 0xe4 => some (2, .ZeroPage)
  | 0xec => some (3, .Absolute)
  | 0x4c => some (3, .NoneAddressing)
  | 0x6c => some (3, .NoneAddressing)
  | 0x20 => some (3, .NoneAddressing)
  | 0x60 => some (1, .NoneAddressing)
  | 0x40 => some (1, .NoneAddressing)
  | 0xd0 => some (2, .NoneAddressing)
  | 0x70 => some (2, .NoneAddressing)
  | 0x50 => some (2, .NoneAddressing)
  | 0x10 => some (2, .NoneAddressing)
  | 0x30 => some (2, .NoneAddressing)
  | 0xf0 => some (2, .NoneAddressing)
  | 0xb0 => some (2, .NoneAddressing)
  | 0x90 => some (2, .NoneAddressing)
  | 0x24 => some (2, .ZeroPage)
  | 0x2c => some (3, .Absolute)
  | 0x85 => some (2, .ZeroPage)
  | 0x95 => some (2, .ZeroPage_X)
  | 0x8d => some (3, .Absolute)
  | 0x9d => some (3, .Absolute_X)
  | 0x99 => some (3, .Absolute_Y)
  | 0x81 => some (2, .Indirect_X)
  | 0x91 => some (2, .Indirect_Y)
  | 0x86 => some (2, .ZeroPage)
  | 0x96 => some (2, .ZeroPage_Y)
  | 0x8e => some (3, .Absolute)
  | 0x84 => some (2, .ZeroPage)
  | 0x94 => some (2, .ZeroPage_X)
  | 0x8c => some (3, .Absolute)
  | 0xa9 => some (2, .Immediate)
  | 0xa5 => some (2, .ZeroPage)
  | 0xb5 => some (2, .ZeroPage_X)
  | 0xad => some (3, .Absolute)
  | 0xbd => some (3, .Absolute_X)
  | 0xb9 => some (3, .Absolute_Y)
  | 0xa1 => some (2, .Indirect_X)
  | 0xb1 => some (2, .Indirect_Y)
  | 0xa2 => some (2, .Immediate)
  | 0xa6 => some (2, .ZeroPage)
  | 0xb6 => some (2, .ZeroPage_Y)
  | 0xae => some (3, .Absolute)
  | 0xbe => some (3, .Absolute_Y)
  | 0xa0 => some (2, .Immediate)
  | 0xa4 => some (2, .ZeroPage)
  | 0xb4 => some (2, .ZeroPage_X)
  | 0xac => some (3, .Absolute)
  | 0xbc => some (3, .Absolute_X)
  | 0xaa => some (1, .NoneAddressing)
  | 0xa8 => some (1, .NoneAddressing)
  | 0xba => some (1, .NoneAddressing)
  | 0x8a => some (1, .NoneAddressing)
  | 0x9a => some (1, .NoneAddressing)
  | 0x98 => some (1, .NoneAddressing)
  | 0xd8 => some (1, .NoneAddressing)
  | 0x58 => some (1, .NoneAddressing)
  | 0xb8 => some (1, .NoneAddressing)
  | 0x78 => some (1, .NoneAddressing)
  | 0xf8 => some (1, .NoneAddressing)
  | 0x48 => some (1, .NoneAddressing)
  | 0x18 => some (1, .NoneAddressing)
  | 0x38 => some (1, .NoneAddressing)
  | 0x68 => some (1, .NoneAddressing)
  | 0x08 => some (1, .NoneAddressing)
  | 0x28 => some (1, .NoneAddressing)
  | _ => none

/-- The semantic action of one opcode: the body of the `match code`
inside `run_with_callback` (the BRK arm `0x00 => return` is handled by
`step`; the catch-all `todo!()` is `none`).  `cpu` is the state after
the opcode fetch incremented PC, so PC points at the first operand
byte. -/
def execAction (code : Nat) (mode : AddressingMode) (cpu : CPU) : Option CPU :=
  match code with
  | 0xa9 | 0xa5 | 0xb5 | 0xad | 0xbd | 0xb9 | 0xa1 | 0xb1 => cpu.lda mode
  | 0xaa => pure cpu.tax
  | 0xe8 => pure cpu.inx
  | 0xd8 => pure { cpu with status := CpuFlags.remove cpu.status CpuFlags.DECIMAL_MODE }
  | 0x58 => pure { cpu with status := CpuFlags.remove cpu.status CpuFlags.INTERRUPT_DISABLE }
  | 0xb8 => pure { cpu with status := CpuFlags.remove cpu.status CpuFlags.OVERFLOW }
  | 0x78 => pure { cpu with status := CpuFlags.insert cpu.status CpuFlags.INTERRUPT_DISABLE }
  | 0xf8 => pure { cpu with status := CpuFlags.insert cpu.status CpuFlags.DECIMAL_MODE }
  | 0x48 => cpu.stack_push cpu.register_a
  | 0x18 => pure { cpu with status := CpuFlags.remove cpu.status CpuFlags.CARRY }
  | 0x38 => pure { cpu with status := CpuFlags.insert cpu.status CpuFlags.CARRY }
  | 0x68 => cpu.pla
  | 0x08 => cpu.php
  | 0x28 => cpu.plp
  | 0x69 | 0x65 | 0x75 | 0x6d | 0x7d | 0x79 | 0x61 | 0x71 => cpu.adc mode
  | 0xe9 | 0xe5 | 0xf5 | 0xed | 0xfd | 0xf9 | 0xe1 | 0xf1 => cpu.sbc mode
  | 0x29 | 0x25 | 0x35 | 0x2d | 0x3d | 0x39 | 0x21 | 0x31 => cpu.and mode
  | 0x49 | 0x45 | 0x55 | 0x4d | 0x5d | 0x59 | 0x41 | 0x51 => cpu.eor mode
  | 0x09 | 0x05 | 0x15 | 0x0d | 0x1d | 0x19 | 0x01 | 0x11 => cpu.ora mode
  | 0x4a => pure cpu.lsr_accumulator
  | 0x46 | 0x56 | 0x4e | 0x5e => cpu.lsr mode
  | 0x0a => pure cpu.asl_accumulator
  | 0x06 | 0x16 | 0x0e | 0x1e => cpu.asl mode
  | 0x2a => pure cpu.rol_accumulator
  | 0x26 | 0x36 | 0x2e | 0x3e => cpu.rol mode
  | 0x6a => pure cpu.ror_accumulator
  | 0x66 | 0x76 | 0x6e | 0x7e => cpu.ror mode
  | 0xe6 | 0xf6 | 0xee | 0xfe => cpu.inc mode
  | 0xc8 => pure cpu.iny
  | 0xc6 | 0xd6 | 0xce | 0xde => cpu.dec mode
  | 0xca => pure cpu.dex
  | 0x88 => pure cpu.dey
  | 0xc9 | 0xc5 | 0xd5 | 0xcd | 0xdd | 0xd9 | 0xc1 | 0xd1 =>
      cpu.compare mode cpu.register_a
  | 0xc0 | 0xc4 | 0xcc => cpu.compare mode cpu.register_y
  | 0xe0 | 0xe4 | 0xec => cpu.compare mode cpu.register_x
  | 0x4c => do
      let mem_address ← cpu.mem_read_u16 cpu.program_counter
      pure { cpu with program_counter := mem_address }
  | 0x6c => do
      let mem_address ← cpu.mem_read_u16 cpu.program_counter
      let indirect_ref ←
        if mem_address &&& 0x00FF = 0x00FF then do
          let lo ← cpu.mem_read mem_address
          let hi ← cpu.mem_read (mem_address &&& 0xFF00)
          pure ((hi <<< 8) ||| lo)
        else cpu.mem_read_u16 mem_address
      pure { cpu with program_counter := indirect_ref }
  | 0x20 => do
      let ret ← checked_u16 (cpu.program_counter + 2)
      let c1 ← cpu.stack_push_u16 (ret - 1)
      let target_address ← c1.mem_read_u16 c1.program_counter
      pure { c1 with program_counter := target_address }
  | 0x60 => do
      let (v, c1) ← cpu.stack_pop_u16
      let npc ← checked_u16 (v + 1)
      pure { c1 with program_counter := npc }
  | 0x40 => do
      let (d, c1) ← cpu.stack_pop
      let s := CpuFlags.insert (CpuFlags.remove d CpuFlags.BREAK) CpuFlags.BREAK2
      let c2 := { c1 with status := s }
      let (p, c3) ← c2.stack_pop_u16
      pure { c3 with program_counter := p }
  | 0xd0 => cpu.branch (!CpuFlags.contains cpu.status CpuFlags.ZERO)
  | 0x70 => cpu.branch (CpuFlags.contains cpu.status CpuFlags.OVERFLOW)
  | 0x50 => cpu.branch (!CpuFlags.contains cpu.status CpuFlags.OVERFLOW)
  | 0x10 => cpu.branch (!CpuFlags.contains cpu.status CpuFlags.NEGATIV)
  | 0x30 => cpu.branch (CpuFlags.contains cpu.status CpuFlags.NEGATIV)
  | 0xf0 => cpu.branch (CpuFlags.contains cpu.status CpuFlags.ZERO)
  | 0xb0 => cpu.branch (CpuFlags.contains cpu.status CpuFlags.CARRY)
  | 0x90 => cpu.branch (!CpuFlags.contains cpu.status CpuFlags.CARRY)
  | 0x24 | 0x2c => cpu.bit mode
  | 0x85 | 0x95 | 0x8d | 0x9d | 0x99 | 0x81 | 0x91 => cpu.sta mode
  | 0x86 | 0x96 | 0x8e => do
      let addr ← cpu.get_operand_address mode
      cpu.mem_write addr cpu.register_x
  | 0x84 | 0x94 | 0x8c => do
      let addr ← cpu.get_operand_address mode
      cpu.mem_write addr cpu.register_y
  | 0xa2 | 0xa6 | 0xb6 | 0xae | 0xbe => cpu.ldx mode
  | 0xa0 | 0xa4 | 0xb4 | 0xac | 0xbc => cpu.ldy mode
  | 0xea => pure cpu
  | 0xa8 =>
      pure (({ cpu with register_y := cpu.register_a
             }).update_zero_and_negative_flags cpu.register_a)
  | 0xba =>
      pure (({ cpu with register_x := cpu.stack_pointer
             }).update_zero_and_negative_flags cpu.stack_pointer)
  | 0x8a =>
      pure (({ cpu with register_a := cpu.register_x
             }).update_zero_and_negative_flags cpu.register_x)
  | 0x9a => pure { cpu with stack_pointer := cpu.register_x }
  | 0x98 =>
      pure (({ cpu with register_a := cpu.register_y
             }).update_zero_and_negative_flags cpu.register_y)
  | _ => none

/-- Outcome of one iteration of the dispatch loop: either the loop
continues with the new state, or BRK returned from `run_with_callback`. -/
inductive StepOut
  | cont (c : CPU)
  | done (c : CPU)

/-- Program counter carried by a `StepOut`. -/
def StepOut.pcOf : StepOut → Nat
  | .cont c => c.program_counter
  | .done c => c.program_counter

/-- One iteration of the dispatch loop of `run_with_callback`: fetch the
opcode byte at PC, increment PC and snapshot it, look the opcode up in
the table (`unwrap` panics — `none` — on an unknown byte), run the
semantic action, and advance PC by `len - 1` exactly when the action
left PC equal to the snapshot. -/
def step (cpu : CPU) : Option StepOut := do
  let code ← cpu.mem_read cpu.program_counter
  let cpu1 := { cpu with program_counter := cpu.program_counter + 1 }
  let pcState := cpu1.program_counter
  let info ← opcodeLookup code
  if code = 0 then pure (StepOut.done cpu1)
  else do
    let cpu2 ← execAction code info.2 cpu1
    if cpu2.program_counter = pcState then do
      let npc ← checked_u16 (pcState + (info.1 - 1))
      pure (StepOut.cont { cpu2 with program_counter := npc })
    else
      pure (StepOut.cont cpu2)

/-- The branch condition the dispatch loop passes to `branch` for each
branch opcode, read off the corresponding match arms of
`run_with_callback` (`none` for non-branch opcodes). -/
def branchCondition (code : Nat) (s : Nat) : Option Bool :=
  match code with
  | 0xd0 => some (!CpuFlags.contains s CpuFlags.ZERO)
  | 0x70 => some (CpuFlags.contains s CpuFlags.OVERFLOW)
  | 0x50 => some (!CpuFlags.contains s CpuFlags.OVERFLOW)
  | 0x10 => some (!CpuFlags.contains s CpuFlags.NEGATIV)
  | 0x30 => some (CpuFlags.contains s CpuFlags.NEGATIV)
  | 0xf0 => some (CpuFlags.contains s CpuFlags.ZERO)
  | 0xb0 => some (CpuFlags.contains s CpuFlags.CARRY)
  | 0x90 => some (!CpuFlags.contains s CpuFlags.CARRY)
  | _ => none

/-- The spec's description of Indirect_Y (post-indexed), written out for
comparison with `get_operand_address`: read one byte `b` at PC, assemble
the pointer from `memory[b]` (low) and `memory[(b+1) mod 256]` (high),
then add Y with 16-bit wrap. -/
def indirect_y_spec (cpu : CPU) : Option Nat := do
  let b ← cpu.mem_read cpu.program_counter
  let lo ← cpu.mem_read b
  let hi ← cpu.mem_read ((b + 1) % 256)
  pure ((((hi <<< 8) ||| lo) + cpu.register_y) % 65536)

/- Concrete CPU states used by witnesses and counterexamples. -/

/-- Memory for the Indirect_Y state: operand byte 0x10 at PC 0x0700,
zero-page pointer bytes at 0x10/0x11, and a byte at 0x12. -/
def C1mem : Nat → Nat := fun a =>
  if a = 0x0700 then 0x10 else if a = 0x10 then 0x00 else
  if a = 0x11 then 0x80 else if a = 0x12 then 0x90 else 0

/-- CPU state exercising Indirect_Y with Y = 1. -/
def C1cpu : CPU := { CPU.new with program_counter := 0x0700, register_y := 1, memory := C1mem }

/-- Memory holding a taken BNE with offset byte 0xFF at address 0x0600. -/
def BneFFmem : Nat → Nat := fun a =>
  if a = 0x0600 then 0xd0 else if a = 0x0601 then 0xff else 0

/-- CPU state about to execute that BNE (ZERO is clear in the reset
status 0b100100, so the branch is taken). -/
def BneFFcpu : CPU := { CPU.new with program_counter := 0x0600, memory := BneFFmem }

/-- Memory with an immediate-mode operand byte 5 at PC 0x0600. -/
def Imm5mem : Nat → Nat := fun a => if a = 0x0600 then 5 else 0

/-- CPU state whose PC points at that operand byte. -/
def Imm5cpu : CPU := { CPU.new with program_counter := 0x0600, memory := Imm5mem }

/-- Memory for JMP Indirect with pointer 0x02FF stored at PC 0x0600:
the page-cross bug reads the high byte from 0x0200, not 0x0300. -/
def JmpIndMem : Nat → Nat := fun a =>
  if a = 0x0600 then 0xff else if a = 0x0601 then 0x02 else
  if a = 0x02ff then 0x34 else if a = 0x0200 then 0x12 else
  if a = 0x0300 then 0x77 else 0

/-- CPU state whose PC points at that two-byte pointer. -/
def JmpIndCpu : CPU := { CPU.new with program_counter := 0x0600, memory := JmpIndMem }

/-- Memory with a NOP opcode at 0x0600. -/
def NopMem : Nat → Nat := fun a => if a = 0x0600 then 0xea else 0

/-- CPU state about to execute that NOP. -/
def NopCpu : CPU := { CPU.new with program_counter := 0x0600, memory := NopMem }

/- Helper lemmas about the status-flag bit operations. -/

namespace CpuFlags

lemma contains_pow (s j : Nat) : contains s (2 ^ j) = s.testBit j := by
  unfold contains
  rw [Nat.and_two_pow]
  cases h : s.testBit j
  · have hne := (Nat.two_pow_pos j).ne'
    simp [hne.symm]
  · simp

lemma testBit_insert (s m k : Nat) :
    (insert s m).testBit k = (s.testBit k || m.testBit k) :=
  Nat.testBit_lor s m k

lemma testBit_remove (s m k : Nat) (hk : k < 8) (hmk : m.testBit k = false) :
    (remove s m).testBit k = s.testBit k := by
  unfold remove
  rw [Nat.testBit_land, Nat.testBit_xor, hmk]
  have h255 : (0xFF : Nat).testBit k = true := by
    have h : (0xFF : Nat) = 2 ^ 8 - 1 := by norm_num
    rw [h, Nat.testBit_two_pow_sub_one]
    simpa using hk
  rw [h255]
  simp

lemma testBit_remove_self (s : Nat) {m j : Nat} (hm : m = 2 ^ j) (hj : j < 8) :
    (remove s m).testBit j = false := by
  unfold remove
  rw [Nat.testBit_land, Nat.testBit_xor, hm, Nat.testBit_two_pow]
  have h255 : (0xFF : Nat).testBit j = true := by
    have h : (0xFF : Nat) = 2 ^ 8 - 1 := by norm_num
    rw [h, Nat.testBit_two_pow_sub_one]
    simpa using hj
  rw [h255]
  simp

lemma contains_set_pow_self (s : Nat) (b : Bool) {m j : Nat} (hm : m = 2 ^ j)
    (hj : j < 8) : contains (set s m b) (2 ^ j) = b := by
  cases b with
  | false =>
      rw [set, contains_pow]
      simpa using testBit_remove_self s hm hj
  | true =>
      rw [set, contains_pow]
      simp only [if_pos]
      rw [testBit_insert, hm, Nat.testBit_two_pow]
      simp

lemma contains_set_pow_ne (s : Nat) (b : Bool) {m i j : Nat} (hm : m = 2 ^ i)
    (hij : i ≠ j) (hj : j < 8) :
    contains (set s m b) (2 ^ j) = contains s (2 ^ j) := by
  cases b with
  | false =>
      rw [set, contains_pow, contains_pow]
      simp only [if_neg Bool.false_ne_true]
      apply testBit_remove s m j hj
      rw [hm, Nat.testBit_two_pow]
      simpa using hij
  | true =>
      rw [set, contains_pow, contains_pow]
      simp only [if_pos]
      rw [testBit_insert, hm, Nat.testBit_two_pow]
      simp [hij]

lemma ite_insert_remove (s m : Nat) (p : Prop) [Decidable p] :
    (if p then insert s m else remove s m) = set s m (decide p) := by
  by_cases h : p <;> simp [h, set]

lemma CARRY_eq : CARRY = 2 ^ 0 := by norm_num [CARRY]

lemma ZERO_eq : ZERO = 2 ^ 1 := by norm_num [ZERO]

lemma OVERFLOW_eq : OVERFLOW = 2 ^ 6 := by norm_num [OVERFLOW]

lemma NEGATIV_eq : NEGATIV = 2 ^ 7 := by norm_num [NEGATIV]

end CpuFlags

/-- Combining a high byte shifted left by 8 with a low byte below 256. -/
lemma shl8_or_eq (hi lo : Nat) (hlo : lo < 256) :
    (hi <<< 8) ||| lo = hi * 256 + lo := by
  apply Nat.eq_of_testBit_eq
  intro i
  rw [Nat.testBit_lor]
  rcases Nat.lt_or_ge i 8 with hc | hc
  · have h1 : (hi <<< 8).testBit i = false := by
      rw [Nat.testBit_shiftLeft]
      simp [Nat.not_le.mpr hc]
    have h2 : (hi * 256 + lo).testBit i = lo.testBit i := by
      have hmod : (hi * 256 + lo) % 256 = lo := by omega
      have h := Nat.testBit_mod_two_pow (hi * 256 + lo) 8 i
      norm_num at h
      rw [hmod] at h
      rw [h]
      simp [hc]
    rw [h1, h2]
    simp
  · have h1 : (hi <<< 8).testBit i = hi.testBit (i - 8) := by
      rw [Nat.testBit_shiftLeft]
      simp [hc]
    have h2 : lo.testBit i = false := by
      apply Nat.testBit_lt_two_pow
      calc lo < 256 := hlo
        _ ≤ 2 ^ i := by
            calc (256 : Nat) = 2 ^ 8 := by norm_num
              _ ≤ 2 ^ i := Nat.pow_le_pow_right (by norm_num) hc
    have h3 : (hi * 256 + lo).testBit i = hi.testBit (i - 8) := by
      have hdiv : (hi * 256 + lo) >>> 8 = hi := by
        rw [Nat.shiftRight_eq_div_pow]
        norm_num
        omega
      have h := Nat.testBit_shiftRight (x := hi * 256 + lo) (i := 8) (j := i - 8)
      rw [hdiv] at h
      have hi8 : 8 + (i - 8) = i := by omega
      rw [hi8] at h
      rw [← h]
    rw [h1, h2, h3]
    simp

/-- Bit 7 of a byte is set exactly when shifting it right by 7 gives 1. -/
lemma shift7_testBit (r : Nat) (h : r < 256) : r >>> 7 = 1 ↔ r.testBit 7 = true := by
  rw [Nat.testBit_to_div_mod]
  rw [Nat.shiftRight_eq_div_pow]
  constructor
  · intro hh
    simp [hh]
  · intro hh
    have h2 : r / 2 ^ 7 < 2 := by
      have hd : r / 2 ^ 7 ≤ 255 / 2 ^ 7 := Nat.div_le_div_right (by omega)
      norm_num at hd
      omega
    simp at hh
    omega

set_option maxRecDepth 2000 in
/-- The `sbc` operand transformation is complement against 0xFF. -/
lemma sbc_operand_eq : ∀ m, m < 256 → CPU.sbc_operand m = m ^^^ 0xFF := by decide

/-- Unfolding of the JMP Indirect (0x6C) arm of the dispatch match. -/
lemma execAction_6c (mode : AddressingMode) (cpu : CPU) :
    execAction 0x6c mode cpu = (do
      let mem_address ← cpu.mem_read_u16 cpu.program_counter
      let indirect_ref ←
        if mem_address &&& 0x00FF = 0x00FF then do
          let lo ← cpu.mem_read mem_address
          let hi ← cpu.mem_read (mem_address &&& 0xFF00)
          pure ((hi <<< 8) ||| lo)
        else cpu.mem_read_u16 mem_address
      pure { cpu with program_counter := indirect_ref }) := rfl

/-- A push with SP below 256 always lands inside the stack page. -/
lemma stack_push_eq (cpu : CPU) (v : Nat) (h : cpu.stack_pointer < 256) :
    cpu.stack_push v = some { cpu with
      memory := (fun i => if i = STACK + cpu.stack_pointer then v else cpu.memory i),
      stack_pointer := (cpu.stack_pointer + 255) % 256 } := by
  unfold CPU.stack_push CPU.mem_write STACK MEMSIZE
  rw [if_pos (by omega)]
  rfl

/-- A pop always reads inside the stack page. -/
lemma stack_pop_eq (cpu : CPU) :
    cpu.stack_pop = some (cpu.memory (STACK + (cpu.stack_pointer + 1) % 256),
      { cpu with stack_pointer := (cpu.stack_pointer + 1) % 256 }) := by
  unfold CPU.stack_pop CPU.mem_read STACK MEMSIZE
  dsimp only
  rw [if_pos (by omega)]
  rfl

/-- C1: the claim says Indirect_Y resolves post-indexed (pointer from
`memory[b]` and `memory[(b+1) mod 256]`, then add Y).  The code instead
pre-indexes the zero-page pointer by Y, duplicating the Indirect_X
path: at PC 0x0700 with operand byte 0x10, Y = 1, `memory[0x10] = 0x00`,
`memory[0x11] = 0x80`, `memory[0x12] = 0x90`, `get_operand_address`
returns 0x9080 while the spec's post-indexed resolution yields 0x8001. -/
theorem indirect_y_preindexes_by_y :
    C1cpu.get_operand_address AddressingMode.Indirect_Y = some 0x9080 ∧
    indirect_y_spec C1cpu = some 0x8001 ∧ (0x9080 : Nat) ≠ 0x8001 :=
  ⟨rfl, rfl, by decide⟩

/-- C3: `add_to_register_a` (the common core of ADC) sets A to
`(A + M + CARRY_in) mod 256`, CARRY iff the sum exceeds 0xFF, OVERFLOW
iff `(M XOR result) AND (result XOR old A) AND 0x80` is nonzero, ZERO
iff the result is 0, and NEGATIVE iff bit 7 of the result is 1. -/
theorem adc_flags_spec (cpu : CPU) (m : Nat) :
    let cin : Nat := if CpuFlags.contains cpu.status CpuFlags.CARRY then 1 else 0
    let r := (cpu.register_a + m + cin) % 256
    let c := cpu.add_to_register_a m
    c.register_a = r ∧
    (CpuFlags.contains c.status CpuFlags.CARRY = true ↔ cpu.register_a + m + cin > 0xFF) ∧
    (CpuFlags.contains c.status CpuFlags.OVERFLOW = true ↔
      (m ^^^ r) &&& (r ^^^ cpu.register_a) &&& 0x80 ≠ 0) ∧
    (CpuFlags.contains c.status CpuFlags.ZERO = true ↔ r = 0) ∧
    (CpuFlags.contains c.status CpuFlags.NEGATIV = true ↔ r.testBit 7 = true) := by
  intro cin r c
  refine ⟨rfl, ?_, ?_, ?_, ?_⟩
  all_goals
    show CpuFlags.contains (cpu.add_to_register_a m).status _ = true ↔ _
  all_goals
    unfold CPU.add_to_register_a CPU.set_register_a CPU.update_zero_and_negative_flags
  all_goals
    simp only [CpuFlags.ite_insert_remove, CpuFlags.CARRY_eq, CpuFlags.ZERO_eq,
      CpuFlags.OVERFLOW_eq, CpuFlags.NEGATIV_eq]
  · rw [CpuFlags.contains_set_pow_ne _ _ rfl (by decide) (by decide)]
    rw [CpuFlags.contains_set_pow_ne _ _ rfl (by decide) (by decide)]
    rw [CpuFlags.contains_set_pow_ne _ _ rfl (by decide) (by decide)]
    rw [CpuFlags.contains_set_pow_self _ _ rfl (by decide)]
    simp [cin, CpuFlags.CARRY]
  · rw [CpuFlags.contains_set_pow_ne _ _ rfl (by decide) (by decide)]
    rw [CpuFlags.contains_set_pow_ne _ _ rfl (by decide) (by decide)]
    rw [CpuFlags.contains_set_pow_self _ _ rfl (by decide)]
    simp [r, cin, CpuFlags.CARRY]
  · rw [CpuFlags.contains_set_pow_ne _ _ rfl (by decide) (by decide)]
    rw [CpuFlags.contains_set_pow_self _ _ rfl (by decide)]
    simp [r, cin, CpuFlags.CARRY]
  · rw [CpuFlags.contains_set_pow_self _ _ rfl (by decide)]
    rw [decide_eq_true_eq]
    exact shift7_testBit _ (Nat.mod_lt _ (by norm_num))

/-- C4: whenever the operand resolves and reads byte M, `sbc` produces
exactly the state `add_to_register_a (M XOR 0xFF)` while `adc` produces
`add_to_register_a M` — i.e. SBC is ADC on the complemented operand. -/
theorem sbc_is_adc_of_complement (cpu : CPU) (mode : AddressingMode) (addr m : Nat)
    (h1 : cpu.get_operand_address mode = some addr)
    (h2 : cpu.mem_read addr = some m)
    (hm : m < 256) :
    cpu.sbc mode = some (cpu.add_to_register_a (m ^^^ 0xFF)) ∧
    cpu.adc mode = some (cpu.add_to_register_a m) := by
  unfold CPU.sbc CPU.adc
  simp [h1, h2, sbc_operand_eq m hm]

/-- Witness for C4 at immediate operand 5. -/
theorem sbc_is_adc_of_complement_witness :
    Imm5cpu.sbc AddressingMode.Immediate = some (Imm5cpu.add_to_register_a (5 ^^^ 0xFF)) ∧
    Imm5cpu.adc AddressingMode.Immediate = some (Imm5cpu.add_to_register_a 5) :=
  sbc_is_adc_of_complement Imm5cpu AddressingMode.Immediate 0x0600 5 rfl rfl (by norm_num)

/-- C5: when the JMP Indirect (0x6C) action reads pointer q at PC, the
new PC is `memory[q] | (memory[q'] << 8)` with `q' = q + 1`, except when
the low byte of q is 0xFF, in which case `q' = q & 0xFF00` (the 6502
page-cross bug). -/
theorem jmp_indirect_page_cross_bug (cpu : CPU) (mode : AddressingMode) (q lo hi : Nat)
    (hq : cpu.mem_read_u16 cpu.program_counter = some q)
    (hlo : cpu.mem_read q = some lo)
    (hhi : cpu.mem_read (if q &&& 0xFF = 0xFF then q &&& 0xFF00 else q + 1) = some hi) :
    execAction 0x6c mode cpu = some { cpu with program_counter := (hi <<< 8) ||| lo } := by
  rw [execAction_6c]
  by_cases hb : q &&& 0xFF = 0xFF
  · rw [if_pos hb] at hhi
    simp [hq, hb, hlo, hhi]
  · rw [if_neg hb] at hhi
    rw [hq]
    simp [hb, CPU.mem_read_u16, hlo, hhi]

/-- Witness for C5 on the page-cross path: pointer 0x02FF, high byte
taken from 0x0200 (not 0x0300), landing at PC 0x1234. -/
theorem jmp_indirect_page_cross_bug_witness :
    execAction 0x6c AddressingMode.NoneAddressing JmpIndCpu =
      some { JmpIndCpu with program_counter := (0x12 <<< 8) ||| 0x34 } :=
  jmp_indirect_page_cross_bug JmpIndCpu AddressingMode.NoneAddressing 0x02ff 0x34 0x12
    rfl rfl rfl

/-- C6 (amended): `mem_read_u16 a` is little-endian
`read(a) | (read(a+1) << 8)` for `a ≤ 0xFFFD`; at `a = 0xFFFE` and
`a = 0xFFFF` the byte read at 0xFFFF is out of bounds and the call
panics (there is no modular wrap of `a + 1` onto address 0x0000). -/
theorem mem_read_u16_little_endian (cpu : CPU) (a : Nat) :
    (a ≤ 0xFFFD → cpu.mem_read_u16 a = some ((cpu.memory (a + 1) <<< 8) ||| cpu.memory a)) ∧
    (0xFFFE ≤ a → a ≤ 0xFFFF → cpu.mem_read_u16 a = none) := by
  unfold CPU.mem_read_u16 CPU.mem_read MEMSIZE
  constructor
  · intro h
    rw [if_pos (by omega), if_pos (by omega)]
    rfl
  · intro h1 h2
    rcases Nat.lt_or_ge a 0xFFFF with hc | hc
    · rw [if_pos (by omega)]
      simp only [Option.pure_def, Option.bind_eq_bind, Option.some_bind]
      rw [if_neg (by omega)]
      rfl
    · rw [if_neg (by omega)]
      rfl

/-- Counterexample to C6 as stated: at a = 0xFFFF (and already at
a = 0xFFFE) `mem_read_u16` returns no value at all — the claimed wrap
to address 0x0000 never happens because the read panics first. -/
theorem mem_read_u16_top_cex :
    CPU.new.mem_read_u16 0xFFFF = none ∧ CPU.new.mem_read_u16 0xFFFE = none :=
  ⟨rfl, rfl⟩

/-- Witness for C6 at a = 0x10 and at the failing boundary 0xFFFE. -/
theorem mem_read_u16_little_endian_witness :
    C1cpu.mem_read_u16 0x10 = some ((C1cpu.memory 0x11 <<< 8) ||| C1cpu.memory 0x10) ∧
    CPU.new.mem_read_u16 0xFFFE = none :=
  ⟨(mem_read_u16_little_endian C1cpu 0x10).1 (by norm_num),
   (mem_read_u16_little_endian CPU.new 0xFFFE).2 (by norm_num) (by norm_num)⟩

/-- C7: push then pop round-trips any byte and restores SP, and
push_u16 then pop_u16 round-trips any 16-bit value and restores SP. -/
theorem stack_push_pop_roundtrip (cpu : CPU) (v w : Nat)
    (hsp : cpu.stack_pointer < 256) (hw : w < 65536) :
    (∃ c1 c2, cpu.stack_push v = some c1 ∧ c1.stack_pop = some (v, c2) ∧
      c2.stack_pointer = cpu.stack_pointer) ∧
    (∃ d1 d2, cpu.stack_push_u16 w = some d1 ∧ d1.stack_pop_u16 = some (w, d2) ∧
      d2.stack_pointer = cpu.stack_pointer) := by
  have h1 : ((cpu.stack_pointer + 255) % 256 + 1) % 256 = cpu.stack_pointer := by omega
  constructor
  · refine ⟨_,
      { cpu with memory := (fun i => if i = STACK + cpu.stack_pointer then v else cpu.memory i) },
      stack_push_eq cpu v hsp, ?_, rfl⟩
    rw [stack_pop_eq]
    dsimp only
    rw [h1]
    simp
  · have hsp1 : ((cpu.stack_pointer + 255) % 256) < 256 := by omega
    refine ⟨{ cpu with
        memory := (fun i =>
          if i = STACK + (cpu.stack_pointer + 255) % 256 then w &&& 0xff
          else if i = STACK + cpu.stack_pointer then (w >>> 8) % 256
          else cpu.memory i),
        stack_pointer := ((cpu.stack_pointer + 255) % 256 + 255) % 256 },
      { cpu with
        memory := (fun i =>
          if i = STACK + (cpu.stack_pointer + 255) % 256 then w &&& 0xff
          else if i = STACK + cpu.stack_pointer then (w >>> 8) % 256
          else cpu.memory i) },
      ?_, ?_, rfl⟩
    · unfold CPU.stack_push_u16
      dsimp only
      rw [stack_push_eq cpu ((w >>> 8) % 256) hsp]
      simp only [Option.pure_def, Option.bind_eq_bind, Option.some_bind]
      exact stack_push_eq _ _ (by dsimp only; exact hsp1)
    · have h2 : (((cpu.stack_pointer + 255) % 256 + 255) % 256 + 1) % 256
          = (cpu.stack_pointer + 255) % 256 := by omega
      have hne2 : STACK + cpu.stack_pointer ≠ STACK + (cpu.stack_pointer + 255) % 256 := by
        unfold STACK
        omega
      have hlo : w &&& 255 = w % 256 := by
        rw [show (255 : Nat) = 2 ^ 8 - 1 by norm_num, Nat.and_pow_two_sub_one_eq_mod]
      have hhi : (w >>> 8) % 256 = w / 256 := by
        rw [Nat.shiftRight_eq_div_pow]
        norm_num
        omega
      have hval : (((w >>> 8) % 256) <<< 8) ||| (w &&& 0xff) = w := by
        rw [shl8_or_eq ((w >>> 8) % 256) (w &&& 0xff) (by omega)]
        omega
      unfold CPU.stack_pop_u16
      rw [stack_pop_eq]
      dsimp only
      rw [h2]
      simp only [Option.pure_def, Option.bind_eq_bind, Option.some_bind]
      rw [stack_pop_eq]
      dsimp only
      rw [h1]
      simp only [Option.pure_def, Option.bind_eq_bind, Option.some_bind]
      simp [hne2, hval]

/-- Witness for C7 with byte 0xAB and word 0xBEEF on a fresh CPU. -/
theorem stack_push_pop_roundtrip_witness :
    (∃ c1 c2, CPU.new.stack_push 0xAB = some c1 ∧ c1.stack_pop = some (0xAB, c2) ∧
      c2.stack_pointer = CPU.new.stack_pointer) ∧
    (∃ d1 d2, CPU.new.stack_push_u16 0xBEEF = some d1 ∧ d1.stack_pop_u16 = some (0xBEEF, d2) ∧
      d2.stack_pointer = CPU.new.stack_pointer) :=
  stack_push_pop_roundtrip CPU.new 0xAB 0xBEEF (by decide) (by norm_num)

/-- C9: the memory buffer is 0xFFFF bytes; every address up to 0xFFFE
reads and writes successfully, while address 0xFFFF is out of bounds
for both reads and writes. -/
theorem memory_one_byte_short (cpu : CPU) (a v : Nat) :
    (a ≤ 0xFFFE → cpu.mem_read a = some (cpu.memory a) ∧ (cpu.mem_write a v).isSome = true) ∧
    (a = 0xFFFF → cpu.mem_read a = none ∧ cpu.mem_write a v = none) := by
  unfold CPU.mem_read CPU.mem_write MEMSIZE
  constructor
  · intro h
    rw [if_pos (by omega), if_pos (by omega)]
    exact ⟨rfl, rfl⟩
  · intro h
    rw [if_neg (by omega), if_neg (by omega)]
    exact ⟨rfl, rfl⟩

/-- Witness for C9 at addresses 5 and 0xFFFF. -/
theorem memory_one_byte_short_witness :
    (CPU.new.mem_read 5 = some (CPU.new.memory 5) ∧ (CPU.new.mem_write 5 7).isSome = true) ∧
    (CPU.new.mem_read 0xFFFF = none ∧ CPU.new.mem_write 0xFFFF 7 = none) :=
  ⟨(memory_one_byte_short CPU.new 5 7).1 (by norm_num),
   (memory_one_byte_short CPU.new 0xFFFF 7).2 rfl⟩

set_option maxRecDepth 4000 in
/-- C8 (amended): `load` succeeds exactly for programs of length up to
0xFFFF − 0x0600 = 0xF9FF bytes (the memory array is one byte short of
64 KiB), copying the bytes to 0x0600 and writing 0x0600 little-endian
to the reset vector; for longer programs the slice panics with no
partial effect. -/
theorem load_bounds (cpu : CPU) (program : List Nat) :
    (program.length ≤ 0xF9FF →
      ∃ c, cpu.load program = some c ∧
        c.memory 0xFFFC = 0x00 ∧ c.memory 0xFFFD = 0x06 ∧
        (∀ i, i < program.length → 0x0600 + i ≠ 0xFFFC → 0x0600 + i ≠ 0xFFFD →
          c.memory (0x0600 + i) = program.getD i 0)) ∧
    (0xF9FF < program.length → cpu.load program = none) := by
  unfold CPU.load CPU.mem_write_u16 CPU.mem_write MEMSIZE
  constructor
  · intro h
    rw [if_pos (by omega)]
    dsimp only
    rw [if_pos (by norm_num)]
    simp only [Option.pure_def, Option.bind_eq_bind, Option.some_bind]
    rw [if_pos (by norm_num)]
    refine ⟨_, rfl, ?_, ?_, ?_⟩
    · show (if (0xFFFC : Nat) = 0xFFFC + 1 then (0x0600 : Nat) >>> 8 % 256
        else if (0xFFFC : Nat) = 0xFFFC then 0x0600 &&& 255
        else if 0x0600 ≤ 0xFFFC ∧ (0xFFFC : Nat) < 0x0600 + program.length
          then program.getD (0xFFFC - 0x0600) 0 else cpu.memory 0xFFFC) = 0x00
      rw [if_neg (by omega), if_pos rfl]
      decide
    · show (if (0xFFFD : Nat) = 0xFFFC + 1 then (0x0600 : Nat) >>> 8 % 256
        else if (0xFFFD : Nat) = 0xFFFC then 0x0600 &&& 255
        else if 0x0600 ≤ 0xFFFD ∧ (0xFFFD : Nat) < 0x0600 + program.length
          then program.getD (0xFFFD - 0x0600) 0 else cpu.memory 0xFFFD) = 0x06
      rw [if_pos (by omega)]
      decide
    · intro i hi hne1 hne2
      show (if (0x0600 + i : Nat) = 0xFFFC + 1 then (0x0600 : Nat) >>> 8 % 256
        else if (0x0600 + i : Nat) = 0xFFFC then 0x0600 &&& 255
        else if 0x0600 ≤ 0x0600 + i ∧ (0x0600 + i : Nat) < 0x0600 + program.length
          then program.getD (0x0600 + i - 0x0600) 0 else cpu.memory (0x0600 + i))
          = program.getD i 0
      have hc1 : ¬((0x0600 + i : Nat) = 0xFFFC + 1) := by omega
      have hc2 : ¬((0x0600 + i : Nat) = 0xFFFC) := by omega
      have hc3 : 0x0600 ≤ 0x0600 + i ∧ (0x0600 + i : Nat) < 0x0600 + program.length := by
        omega
      simp [hc1, hc2, hc3]
  · intro h
    rw [if_neg (by omega)]

/-- Counterexample to C8 as stated: the claim allows programs up to
0x10000 − 0x0600 = 0xFA00 bytes, but a program of exactly 0xFA00 bytes
already panics, because the memory array holds only 0xFFFF bytes. -/
theorem load_max_length_cex :
    CPU.load CPU.new (List.replicate 0xFA00 0) = none := by
  unfold CPU.load MEMSIZE
  rw [if_neg (by simp only [List.length_replicate]; norm_num)]

/-- Witness for C8 on a three-byte program and on the failing length. -/
theorem load_bounds_witness :
    (∃ c, CPU.load CPU.new [1, 2, 3] = some c ∧
      c.memory 0xFFFC = 0x00 ∧ c.memory 0xFFFD = 0x06 ∧
      (∀ i, i < [1, 2, 3].length → 0x0600 + i ≠ 0xFFFC → 0x0600 + i ≠ 0xFFFD →
        c.memory (0x0600 + i) = [1, 2, 3].getD i 0)) ∧
    CPU.load CPU.new (List.replicate 0xFA00 0) = none :=
  ⟨(load_bounds CPU.new [1, 2, 3]).1 (by norm_num),
   (load_bounds CPU.new (List.replicate 0xFA00 0)).2
     (by simp only [List.length_replicate]; norm_num)⟩

/-- C2 (amended): in each dispatch-loop iteration the opcode is fetched
at PC, PC is incremented and snapshotted, and after the semantic action
PC is advanced by `len − 1` exactly when it still equals the snapshot:
an action that set PC to anything other than the snapshot keeps its
target, while an action that left PC at the snapshot (including a jump
or taken branch whose target IS the snapshot, cf. the offset-0xFF
branch) ends with PC advanced by `len − 1`. -/
theorem step_pc_advance_iff (cpu c2 : CPU) (code len : Nat) (mode : AddressingMode)
    (hcode : cpu.mem_read cpu.program_counter = some code)
    (hop : opcodeLookup code = some (len, mode))
    (hnz : code ≠ 0)
    (hexec : execAction code mode { cpu with program_counter := cpu.program_counter + 1 }
      = some c2)
    (hfit : cpu.program_counter + 1 + (len - 1) < 65536) :
    step cpu = some (StepOut.cont (
      if c2.program_counter = cpu.program_counter + 1
      then { c2 with program_counter := cpu.program_counter + 1 + (len - 1) }
      else c2)) := by
  unfold step
  rw [hcode]
  simp only [Option.pure_def, Option.bind_eq_bind, Option.some_bind]
  rw [hop]
  simp only [Option.pure_def, Option.bind_eq_bind, Option.some_bind]
  rw [if_neg hnz]
  rw [hexec]
  simp only [Option.pure_def, Option.bind_eq_bind, Option.some_bind]
  by_cases hpc : c2.program_counter = cpu.program_counter + 1
  · rw [if_pos hpc, if_pos hpc]
    unfold checked_u16
    rw [if_pos hfit]
    simp only [Option.pure_def, Option.bind_eq_bind, Option.some_bind]
  · rw [if_neg hpc, if_neg hpc]

/-- Counterexample to C2 as stated: a taken BNE with offset byte 0xFF
sets PC to its branch target 0x0601 (the snapshot), but the dispatch
loop then adds `len − 1`, so the final PC is 0x0602 — the action set PC
itself and yet its target was clobbered. -/
theorem branch_target_clobbered_cex :
    (execAction 0xd0 AddressingMode.NoneAddressing
        { BneFFcpu with program_counter := BneFFcpu.program_counter + 1 }).map
      CPU.program_counter = some 0x0601 ∧
    (step BneFFcpu).map StepOut.pcOf = some 0x0602 ∧ (0x0601 : Nat) ≠ 0x0602 :=
  ⟨rfl, rfl, by decide⟩

/-- Witness for C2 on a NOP at 0x0600 (PC untouched by the action, so
the loop advances it by `len − 1 = 0` past the snapshot). -/
theorem step_pc_advance_iff_witness :
    step NopCpu = some (StepOut.cont (
      if ({ NopCpu with program_counter := 0x0600 + 1 } : CPU).program_counter
          = NopCpu.program_counter + 1
      then { { NopCpu with program_counter := 0x0600 + 1 } with
             program_counter := NopCpu.program_counter + 1 + (1 - 1) }
      else { NopCpu with program_counter := 0x0600 + 1 })) :=
  step_pc_advance_iff NopCpu { NopCpu with program_counter := 0x0600 + 1 } 0xea 1
    AddressingMode.NoneAddressing rfl rfl (by norm_num) rfl (by decide)

/-- Reads ignore the program-counter field. -/
lemma mem_read_pc_irrel (cpu : CPU) (x a : Nat) :
    CPU.mem_read { cpu with program_counter := x } a = cpu.mem_read a := rfl

/-- A taken branch whose offset byte is 0xFF (−1) sets PC to
`(PC + 1 + 0xFFFF) mod 2^16`. -/
lemma branch_true_ff (c : CPU) (hm : c.mem_read c.program_counter = some 0xFF) :
    c.branch true = some { c with program_counter :=
      ((c.program_counter + 1) % 65536 + 65535) % 65536 } := by
  unfold CPU.branch
  rw [if_pos rfl]
  rw [hm]
  simp only [Option.pure_def, Option.bind_eq_bind, Option.some_bind]
  have hext : CPU.u16_of_i8 (CPU.i8_of_u8 0xFF) = 65535 := rfl
  rw [hext]

/-- A full dispatch iteration of a taken branch with offset 0xFF: the
branch target equals the snapshot, the equality test fires, and the
final PC is the branch address plus 2. -/
lemma step_branch_ff_core (cpu : CPU) (code : Nat)
    (hcode : cpu.mem_read cpu.program_counter = some code)
    (hlk : opcodeLookup code = some (2, AddressingMode.NoneAddressing))
    (hnz : code ≠ 0)
    (hexec : execAction code AddressingMode.NoneAddressing
        { cpu with program_counter := cpu.program_counter + 1 }
      = CPU.branch { cpu with program_counter := cpu.program_counter + 1 } true)
    (hoff : cpu.mem_read (cpu.program_counter + 1) = some 0xFF) :
    step cpu = some (StepOut.cont { cpu with program_counter := cpu.program_counter + 2 }) := by
  have hpc : cpu.program_counter + 1 < 0xFFFF := by
    by_contra hge
    unfold CPU.mem_read MEMSIZE at hoff
    rw [if_neg (by omega)] at hoff
    exact Option.noConfusion hoff
  have hbr := branch_true_ff { cpu with program_counter := cpu.program_counter + 1 }
    (by rw [mem_read_pc_irrel]; exact hoff)
  unfold step
  rw [hcode]
  simp only [Option.pure_def, Option.bind_eq_bind, Option.some_bind]
  rw [hlk]
  simp only [Option.pure_def, Option.bind_eq_bind, Option.some_bind]
  rw [if_neg hnz]
  rw [hexec, hbr]
  simp only [Option.pure_def, Option.bind_eq_bind, Option.some_bind]
  have harith : ((cpu.program_counter + 1 + 1) % 65536 + 65535) % 65536
      = cpu.program_counter + 1 := by omega
  rw [harith]
  rw [if_pos rfl]
  unfold checked_u16
  rw [if_pos (by omega)]
  simp only [Option.some_bind]

/-- C10: for every taken branch (any of the eight branch opcodes) whose
offset byte is 0xFF, the computed branch target equals the PC snapshot
taken after the opcode fetch, so the dispatch loop's "did not modify
PC" test fires and adds `len − 1 = 1`: the final PC is the branch
opcode's address plus 2, identical to the not-taken case. -/
theorem branch_offset_ff_lands_on_snapshot (cpu : CPU) (code : Nat)
    (hcode : cpu.mem_read cpu.program_counter = some code)
    (hcond : branchCondition code cpu.status = some true)
    (hoff : cpu.mem_read (cpu.program_counter + 1) = some 0xFF) :
    (CPU.branch { cpu with program_counter := cpu.program_counter + 1 } true).map
        CPU.program_counter = some (cpu.program_counter + 1) ∧
    step cpu = some (StepOut.cont { cpu with program_counter := cpu.program_counter + 2 }) := by
  have hpc : cpu.program_counter + 1 < 0xFFFF := by
    by_contra hge
    unfold CPU.mem_read MEMSIZE at hoff
    rw [if_neg (by omega)] at hoff
    exact Option.noConfusion hoff
  have harith : ((cpu.program_counter + 1 + 1) % 65536 + 65535) % 65536
      = cpu.program_counter + 1 := by omega
  constructor
  · rw [branch_true_ff { cpu with program_counter := cpu.program_counter + 1 }
      (by rw [mem_read_pc_irrel]; exact hoff)]
    dsimp only [Option.map]
    rw [harith]
  · unfold branchCondition at hcond
    split at hcond
    · have hb := Option.some.inj hcond
      refine step_branch_ff_core cpu _ hcode rfl (by norm_num) ?_ hoff
      show CPU.branch _ (!CpuFlags.contains cpu.status CpuFlags.ZERO) = _
      rw [hb]
    · have hb := Option.some.inj hcond
      refine step_branch_ff_core cpu _ hcode rfl (by norm_num) ?_ hoff
      show CPU.branch _ (CpuFlags.contains cpu.status CpuFlags.OVERFLOW) = _
      rw [hb]
    · have hb := Option.some.inj hcond
      refine step_branch_ff_core cpu _ hcode rfl (by norm_num) ?_ hoff
      show CPU.branch _ (!CpuFlags.contains cpu.status CpuFlags.OVERFLOW) = _
      rw [hb]
    · have hb := Option.some.inj hcond
      refine step_branch_ff_core cpu _ hcode rfl (by norm_num) ?_ hoff
      show CPU.branch _ (!CpuFlags.contains cpu.status CpuFlags.NEGATIV) = _
      rw [hb]
    · have hb := Option.some.inj hcond
      refine step_branch_ff_core cpu _ hcode rfl (by norm_num) ?_ hoff
      show CPU.branch _ (CpuFlags.contains cpu.status CpuFlags.NEGATIV) = _
      rw [hb]
    · have hb := Option.some.inj hcond
      refine step_branch_ff_core cpu _ hcode rfl (by norm_num) ?_ hoff
      show CPU.branch _ (CpuFlags.contains cpu.status CpuFlags.ZERO) = _
      rw [hb]
    · have hb := Option.some.inj hcond
      refine step_branch_ff_core cpu _ hcode rfl (by norm_num) ?_ hoff
      show CPU.branch _ (CpuFlags.contains cpu.status CpuFlags.CARRY) = _
      rw [hb]
    · have hb := Option.some.inj hcond
      refine step_branch_ff_core cpu _ hcode rfl (by norm_num) ?_ hoff
      show CPU.branch _ (!CpuFlags.contains cpu.status CpuFlags.CARRY) = _
      rw [hb]
    · exact Option.noConfusion hcond

/-- Witness for C10: the concrete taken BNE with offset 0xFF at 0x0600. -/
theorem branch_offset_ff_lands_on_snapshot_witness :
    (CPU.branch { BneFFcpu with program_counter := BneFFcpu.program_counter + 1 } true).map
        CPU.program_counter = some (BneFFcpu.program_counter + 1) ∧
    step BneFFcpu = some (StepOut.cont
      { BneFFcpu with program_counter := BneFFcpu.program_counter + 2 }) :=
  branch_offset_ff_lands_on_snapshot BneFFcpu 0xd0 rfl rfl rfl

end Nes
